import Mathlib

/-!
Verification development for the SQLSync demo frontend bootstrap/routing
layer (`demo/frontend/src/main.tsx`).

The file is a shallow embedding of that TypeScript module:

* `isLocalhost`, `COORDINATOR_URL`, `COORDINATOR_URL_WS` embed the
  module-level constants, made explicit functions of `location.hostname`.
* `newDocumentUrl` / `newDocumentId` embed `newDocumentId`; the browser's
  `fetch` is passed in as an oracle `Request → FetchResult`, and the list of
  issued requests is returned alongside the outcome so that "exactly one
  request" facts are statable.
* `DocRoute` embeds the `DocRoute` component: its console output, the
  rendered view, and the (empty) set of network requests it makes.
* `matchRoute` / `navigate` embed the three-entry route table built with
  `createBrowserRouter` and the resolution of a single navigation.
* JavaScript string primitives (`String.prototype.trim`,
  `encodeURIComponent`) are embedded per the ECMAScript definitions.

The identifier codec (`journalIdFromString` / `journalIdToString`) lives in
the `@orbitinghail/sqlsync-worker` package, outside the embedded file, and is
modelled from the spec where noted.
-/

namespace SqlSyncDemo

/-- ECMAScript whitespace predicate used by `String.prototype.trim`: TAB, LF,
VT, FF, CR, SPACE, NBSP, and the Unicode space separators, line/paragraph
separators and ZWNBSP. -/
def isJsWhitespace (c : Char) : Bool :=
  let n := c.toNat
  n == 9 || n == 10 || n == 11 || n == 12 || n == 13 || n == 32 ||
  n == 160 || n == 5760 || (decide (8192 ≤ n) && decide (n ≤ 8202)) ||
  n == 8232 || n == 8233 || n == 8239 || n == 8287 || n == 12288 || n == 65279

/-- Embedding of JavaScript `String.prototype.trim`: drop leading and trailing
ECMAScript whitespace. -/
def jsTrim (s : String) : String :=
  String.mk (((s.data.dropWhile isJsWhitespace).reverse.dropWhile isJsWhitespace).reverse)

/-- Uppercase hexadecimal digit for a value below 16. -/
def hexUpper (n : Nat) : Char :=
  if n < 10 then Char.ofNat (48 + n) else Char.ofNat (55 + n)

/-- Percent-encoding of one byte, e.g. `32 ↦ "%20"`. -/
def percentEncodeByte (b : Nat) : String :=
  String.mk [Char.ofNat 37, hexUpper (b / 16), hexUpper (b % 16)]

/-- UTF-8 byte sequence of a Unicode scalar value. -/
def utf8Bytes (n : Nat) : List Nat :=
  if n < 128 then [n]
  else if n < 2048 then [192 + n / 64, 128 + n % 64]
  else if n < 65536 then [224 + n / 4096, 128 + n / 64 % 64, 128 + n % 64]
  else [240 + n / 262144, 128 + n / 4096 % 64, 128 + n / 64 % 64, 128 + n % 64]

/-- Characters `encodeURIComponent` leaves unescaped: ASCII alphanumerics and
`- _ . ! ~ * ' ( )` (39 is the apostrophe). -/
def isUriUnreserved (c : Char) : Bool :=
  c.isAlphanum || c == '-' || c == '_' || c == '.' || c == '!' ||
  c == '~' || c == '*' || c.toNat == 39 || c == '(' || c == ')'

/-- Embedding of JavaScript `encodeURIComponent`: unreserved characters pass
through, every other character becomes the percent-encoding of its UTF-8
bytes. -/
def encodeURIComponent (s : String) : String :=
  s.data.foldl
    (fun acc c =>
      acc ++ (if isUriUnreserved c then String.singleton c
              else String.join ((utf8Bytes c.toNat).map percentEncodeByte)))
    ""

/-- Modelled from the spec: the identifier codec is code of this repository
outside the embedded file (the `@orbitinghail/sqlsync-worker` package). The
spec describes the canonical form only as "the URL-safe textual encoding of a
DocumentIdentifier"; we take URL-safe characters to be alphanumerics, `-`
and `_`. -/
def isUrlSafeChar (c : Char) : Bool :=
  c.isAlphanum || c == '-' || c == '_'

/-- Modelled from the spec: a canonical identifier string is a nonempty
string of URL-safe characters. -/
def isCanonical (s : String) : Bool :=
  !(s == "") && s.data.all isUrlSafeChar

/-- Modelled from the spec: a DocumentIdentifier is opaque and in bijection
with its canonical string form, so we represent it by that canonical
string. -/
abbrev JournalId := {s : String // isCanonical s = true}

/-- Modelled from the spec: `journalIdToString` returns the canonical string
form of an identifier. -/
def journalIdToString (id : JournalId) : String := id.val

/-- Modelled from the spec: `journalIdFromString` parses a canonical string
back into an identifier and fails on any other string. -/
def journalIdFromString (s : String) : Except String JournalId :=
  if h : isCanonical s = true then Except.ok ⟨s, h⟩
  else Except.error "unable to parse journal id"

/-- Embedding of JavaScript `String.prototype.startsWith`: the second string
is a prefix of the first. -/
def jsStartsWith (s pre : String) : Bool :=
  pre.data.isPrefixOf s.data

/-- Embedding of `isLocalhost`: the hostname is exactly `localhost` or starts
with the private-network prefix `192.168`. -/
def isLocalhost (hostname : String) : Bool :=
  hostname == "localhost" || jsStartsWith hostname "192.168"

/-- Embedding of `COORDINATOR_URL`, as a function of `location.hostname`. -/
def COORDINATOR_URL (hostname : String) : String :=
  if isLocalhost hostname then hostname ++ ":8787"
  else "sqlsync.orbitinghail.workers.dev"

/-- Embedding of `COORDINATOR_URL_WS`, as a function of `location.hostname`. -/
def COORDINATOR_URL_WS (hostname : String) : String :=
  (if isLocalhost hostname then "ws" else "wss") ++ "://" ++ COORDINATOR_URL hostname

/-- A single HTTP request as issued through `fetch`. -/
structure Request where
  url : String
  method : String
  deriving DecidableEq

/-- Result of a `fetch` call: a response (status and body text) or a network
error (a rejected promise). -/
inductive FetchResult where
  | ok (status : Nat) (body : String)
  | networkError (message : String)
  deriving DecidableEq

/-- An error escaping `newDocumentId`: a rejected `fetch` promise or an
exception thrown by the identifier codec. -/
inductive JsError where
  | network (message : String)
  | codec (message : String)
  deriving DecidableEq

/-- The URL built by `newDocumentId` before the name segment is considered:
`protocol + "//" + COORDINATOR_URL + "/new"` (the JavaScript `location.protocol`
value includes the trailing colon). -/
def newDocBase (protocol hostname : String) : String :=
  protocol ++ "//" ++ COORDINATOR_URL hostname ++ "/new"

/-- Embedding of the URL construction in `newDocumentId`: append
`"/" + encodeURIComponent(name)` exactly when `name.trim().length > 0`. -/
def newDocumentUrl (protocol hostname : String) (name : String) : String :=
  if 0 < (jsTrim name).length then
    newDocBase protocol hostname ++ ("/" ++ encodeURIComponent name)
  else newDocBase protocol hostname

/-- The one POST request issued by `newDocumentId`. -/
def newDocRequest (protocol hostname name : String) : Request :=
  ⟨newDocumentUrl protocol hostname name, "POST"⟩

/-- Embedding of `newDocumentId`: issue the single POST, then feed the
response body to `journalIdFromString`. The first component is the list of
requests issued; the second is the outcome. The HTTP status of the response
is never inspected (`fetch` does not reject on non-2xx statuses and the code
does not check `response.ok`). -/
def newDocumentId (protocol hostname : String) (fetch : Request → FetchResult)
    (name : String) : List Request × Except JsError JournalId :=
  ([newDocRequest protocol hostname name],
    match fetch (newDocRequest protocol hostname name) with
    | FetchResult.networkError m => Except.error (JsError.network m)
    | FetchResult.ok _ body =>
        match journalIdFromString body with
        | Except.error e => Except.error (JsError.codec e)
        | Except.ok id => Except.ok id)

/-- What the `DocRoute` component renders: the inline `<pre>` error element,
the `<App>` element bound to a parsed identifier, or an exception thrown out
of the component body by the codec. -/
inductive DocView where
  | errorPre (color text : String)
  | app (docId : JournalId)
  | thrown (message : String)
  deriving DecidableEq

/-- One evaluation of the `DocRoute` component body: the network requests it
issues, its console output, and what it renders. -/
structure DocRouteRun where
  requests : List Request
  log : List String
  view : DocView
  deriving DecidableEq

/-- Embedding of the `DocRoute` component. `useParams().docId` is `none` when
the parameter is absent; the JavaScript guard `!docId` is also true for the
empty string. The body contains no `fetch`, so the request list is empty in
every branch. -/
def DocRoute (docId : Option String) : DocRouteRun :=
  match docId with
  | none =>
      ⟨[], ["doc id not found in params"],
        DocView.errorPre "red" "ERROR: doc id not found in params"⟩
  | some s =>
      if s = "" then
        ⟨[], ["doc id not found in params"],
          DocView.errorPre "red" "ERROR: doc id not found in params"⟩
      else
        match journalIdFromString s with
        | Except.ok id => ⟨[], [], DocView.app id⟩
        | Except.error e => ⟨[], [], DocView.thrown e⟩

/-- Which entry of the route table a navigation's path segments select:
`/`, `/named/:name`, `/:docId`, or no match. The static segment `named`
outranks the dynamic `:docId` segment, and the two patterns differ in
segment count, so matching is by segment count first. -/
inductive RouteMatch where
  | root
  | named (name : String)
  | doc (docId : String)
  | noMatch

/-- Route matching for the three-entry route table of `createBrowserRouter`. -/
def matchRoute (segments : List String) : RouteMatch :=
  match segments with
  | [] => RouteMatch.root
  | [docId] => RouteMatch.doc docId
  | [a, name] => if a = "named" then RouteMatch.named name else RouteMatch.noMatch
  | _ => RouteMatch.noMatch

/-- Outcome of resolving one navigation: a redirect issued by a loader, a
rendered view, a loader failure propagated to the router, or no matching
route. -/
inductive NavResult where
  | redirect (location : String)
  | render (log : List String) (view : DocView)
  | failed (e : JsError)
  | noMatch
  deriving DecidableEq

/-- Embedding of one navigation through the router: the `/` and
`/named/:name` loaders call `newDocumentId` and redirect to
`"/" ++ journalIdToString docId`; `/:docId` renders `DocRoute`. The first
component collects every network request issued during resolution. -/
def navigate (protocol hostname : String) (fetch : Request → FetchResult)
    (segments : List String) : List Request × NavResult :=
  match matchRoute segments with
  | RouteMatch.root =>
      let r := newDocumentId protocol hostname fetch ""
      (r.1, match r.2 with
        | Except.ok id => NavResult.redirect ("/" ++ journalIdToString id)
        | Except.error e => NavResult.failed e)
  | RouteMatch.named name =>
      let r := newDocumentId protocol hostname fetch name
      (r.1, match r.2 with
        | Except.ok id => NavResult.redirect ("/" ++ journalIdToString id)
        | Except.error e => NavResult.failed e)
  | RouteMatch.doc docId =>
      let run := DocRoute (some docId)
      (run.requests, NavResult.render run.log run.view)
  | RouteMatch.noMatch => ([], NavResult.noMatch)

/-! ### Helper lemmas -/

/-- A string has positive length exactly when it is nonempty. -/
lemma length_pos_iff_ne_empty (s : String) : 0 < s.length ↔ s ≠ "" := by
  rw [show s.length = s.data.length from rfl, List.length_pos]
  exact (not_congr String.ext_iff).symm

/-- Parsing the canonical form of an identifier recovers the identifier. -/
lemma journalIdFromString_toString (id : JournalId) :
    journalIdFromString (journalIdToString id) = Except.ok id := by
  obtain ⟨s, hs⟩ := id
  simp [journalIdFromString, journalIdToString, hs]

/-- A successful parse returns an identifier whose canonical form is the
parsed string, and that string is canonical. -/
lemma journalIdFromString_ok {s : String} {id : JournalId}
    (h : journalIdFromString s = Except.ok id) :
    journalIdToString id = s ∧ isCanonical s = true := by
  unfold journalIdFromString at h
  split at h
  case isTrue hc =>
    injection h with h2
    exact ⟨by rw [← h2]; rfl, hc⟩
  case isFalse hc => exact (Except.noConfusion h)

/-- Canonical identifier strings are nonempty. -/
lemma canonical_ne_empty {s : String} (h : isCanonical s = true) : s ≠ "" :=
  fun he => by subst he; exact absurd h (by decide)

/-- Unfolding of `newDocumentId` when the response parses. -/
lemma newDocumentId_ok {p h name body : String} {st : Nat} {fetch : Request → FetchResult}
    {id : JournalId}
    (hf : fetch (newDocRequest p h name) = FetchResult.ok st body)
    (hp : journalIdFromString body = Except.ok id) :
    newDocumentId p h fetch name = ([newDocRequest p h name], Except.ok id) := by
  simp only [newDocumentId, hf, hp]

/-- Unfolding of `navigate` on the root path. -/
lemma navigate_root (p h : String) (fetch : Request → FetchResult) :
    navigate p h fetch [] =
      ((newDocumentId p h fetch "").1,
        match (newDocumentId p h fetch "").2 with
        | Except.ok id => NavResult.redirect ("/" ++ journalIdToString id)
        | Except.error e => NavResult.failed e) := rfl

/-- Unfolding of `navigate` on a `/named/:name` path. -/
lemma navigate_named (p h n : String) (fetch : Request → FetchResult) :
    navigate p h fetch ["named", n] =
      ((newDocumentId p h fetch n).1,
        match (newDocumentId p h fetch n).2 with
        | Except.ok id => NavResult.redirect ("/" ++ journalIdToString id)
        | Except.error e => NavResult.failed e) := rfl

/-- Unfolding of `navigate` on a single-segment `/:docId` path. -/
lemma navigate_doc (p h d : String) (fetch : Request → FetchResult) :
    navigate p h fetch [d] =
      ((DocRoute (some d)).requests,
        NavResult.render (DocRoute (some d)).log (DocRoute (some d)).view) := rfl

/-! ### Claim theorems -/

/-- C1: for every document name `n` (including empty and whitespace-only
strings), `createDocument(n)` issues exactly one HTTP POST whose request URL
is the base URL ending in `/new` (name segment omitted) precisely when
`n.trim()` is empty, and otherwise is that base followed by `/` and `n`
percent-encoded exactly once. -/
theorem createDocument_path_spec (p h n : String) :
    (newDocumentUrl p h n = newDocBase p h ↔ jsTrim n = "")
    ∧ (jsTrim n ≠ "" →
        newDocumentUrl p h n = newDocBase p h ++ ("/" ++ encodeURIComponent n))
    ∧ (∀ fetch : Request → FetchResult,
        (newDocumentId p h fetch n).1 = [⟨newDocumentUrl p h n, "POST"⟩]) := by
  refine ⟨⟨?_, ?_⟩, ?_, fun fetch => rfl⟩
  · intro heq
    by_contra hne
    have hpos : 0 < (jsTrim n).length := (length_pos_iff_ne_empty _).mpr hne
    rw [newDocumentUrl, if_pos hpos] at heq
    have hlen := congrArg String.length heq
    rw [String.length_append, String.length_append] at hlen
    have h1 : "/".length = 1 := rfl
    omega
  · intro hemp
    have hz : ¬ 0 < (jsTrim n).length := by
      rw [length_pos_iff_ne_empty]; simp [hemp]
    rw [newDocumentUrl, if_neg hz]
  · intro hne
    have hpos : 0 < (jsTrim n).length := (length_pos_iff_ne_empty _).mpr hne
    rw [newDocumentUrl, if_pos hpos]

/-- Witness for C1 at concrete inputs: a whitespace-only name omits the
segment, a nonblank name is appended percent-encoded. -/
theorem createDocument_path_spec_witness :
    (newDocumentUrl "http:" "localhost" "   " = newDocBase "http:" "localhost")
    ∧ (newDocumentUrl "http:" "localhost" "a b" =
        newDocBase "http:" "localhost" ++ ("/" ++ encodeURIComponent "a b")) :=
  ⟨(createDocument_path_spec "http:" "localhost" "   ").1.mpr (by decide),
   (createDocument_path_spec "http:" "localhost" "a b").2.1 (by decide)⟩

/-- C10: when the trimmed name is nonempty, the appended segment is the
percent-encoding of the original untrimmed name (so a leading space survives
as `%20`); trimming only decides whether the segment is present. -/
theorem createDocument_segment_untrimmed (p h n : String) (hne : jsTrim n ≠ "") :
    newDocumentUrl p h n = newDocBase p h ++ ("/" ++ encodeURIComponent n)
    ∧ encodeURIComponent " plan" = "%20plan" := by
  constructor
  · have hpos : 0 < (jsTrim n).length := (length_pos_iff_ne_empty _).mpr hne
    rw [newDocumentUrl, if_pos hpos]
  · rfl

/-- Witness for C10 at the name `" plan"` from the claim. -/
theorem createDocument_segment_untrimmed_witness :
    newDocumentUrl "http:" "localhost" " plan" =
      newDocBase "http:" "localhost" ++ ("/" ++ encodeURIComponent " plan")
    ∧ encodeURIComponent " plan" = "%20plan" :=
  createDocument_segment_untrimmed "http:" "localhost" " plan" (by decide)

/-- C3: the derived coordinator WebSocket URL is `ws://hostname:8787` when
the hostname is `localhost` or starts with `192.168`, and
`wss://sqlsync.orbitinghail.workers.dev` otherwise. In the source this value
is a module-level constant, so it is a pure function of the hostname
computed once at startup. -/
theorem coordinator_ws_url_spec (h : String) :
    ((h = "localhost" ∨ jsStartsWith h "192.168" = true) →
        COORDINATOR_URL_WS h = "ws://" ++ (h ++ ":8787"))
    ∧ (¬(h = "localhost" ∨ jsStartsWith h "192.168" = true) →
        COORDINATOR_URL_WS h = "wss://sqlsync.orbitinghail.workers.dev") := by
  constructor
  · intro hl
    have hb : isLocalhost h = true := by
      simp only [isLocalhost, Bool.or_eq_true, beq_iff_eq]
      exact hl
    simp only [COORDINATOR_URL_WS, COORDINATOR_URL, hb, if_true]
    congr 1
  · intro hl
    have hb : isLocalhost h = false := by
      cases hbv : isLocalhost h
      · rfl
      · exact absurd (by simpa [isLocalhost, Bool.or_eq_true, beq_iff_eq] using hbv) hl
    unfold COORDINATOR_URL_WS COORDINATOR_URL
    rw [hb]
    rfl

/-- Witness for C3 at the hostnames named in the spec. -/
theorem coordinator_ws_url_spec_witness :
    COORDINATOR_URL_WS "192.168.1.5" = "ws://" ++ ("192.168.1.5" ++ ":8787")
    ∧ COORDINATOR_URL_WS "app.example.com" = "wss://sqlsync.orbitinghail.workers.dev" :=
  ⟨(coordinator_ws_url_spec "192.168.1.5").1 (Or.inr (by decide)),
   (coordinator_ws_url_spec "app.example.com").2 (by decide)⟩

/-- C7 counterexample: with the page served over `https` and the local
hostname `localhost`, the Document Creator URL uses scheme `https`, not the
`http` the claim requires for a local hostname — the HTTP scheme comes from
`location.protocol`, not from the locality check. -/
theorem http_scheme_counterexample :
    isLocalhost "localhost" = true
    ∧ newDocumentUrl "https:" "localhost" "" = "https://localhost:8787/new"
    ∧ newDocumentUrl "https:" "localhost" "" ≠ "http://localhost:8787/new" := by
  decide

/-- C7 amended: the scheme of the coordinator HTTP base URL is the page's own
`location.protocol`, passed through unchanged and independent of the locality
check (which affects only the host part and the WebSocket scheme). -/
theorem http_scheme_is_page_protocol (protocol hostname name : String) :
    ∃ rest : String,
      newDocumentUrl protocol hostname name = protocol ++ ("//" ++ rest) := by
  by_cases hpos : 0 < (jsTrim name).length
  · refine ⟨COORDINATOR_URL hostname ++ ("/new" ++ ("/" ++ encodeURIComponent name)), ?_⟩
    rw [newDocumentUrl, if_pos hpos]
    simp only [newDocBase, String.append_assoc]
  · refine ⟨COORDINATOR_URL hostname ++ "/new", ?_⟩
    rw [newDocumentUrl, if_neg hpos]
    simp only [newDocBase, String.append_assoc]

/-- C2: a navigation to `/` runs the root loader, which calls the Document
Creator with no name and redirects to `/` followed by the canonical string of
the identifier it received, issuing exactly the one creation request; a
navigation to `/named/:name` does the same with the `name` path parameter. -/
theorem router_creation_redirect (p h : String) (fetch : Request → FetchResult) :
    (∀ (st : Nat) (body : String) (id : JournalId),
        fetch (newDocRequest p h "") = FetchResult.ok st body →
        journalIdFromString body = Except.ok id →
        navigate p h fetch [] =
          ([newDocRequest p h ""], NavResult.redirect ("/" ++ journalIdToString id)))
    ∧ (∀ (name : String) (st : Nat) (body : String) (id : JournalId),
        fetch (newDocRequest p h name) = FetchResult.ok st body →
        journalIdFromString body = Except.ok id →
        navigate p h fetch ["named", name] =
          ([newDocRequest p h name], NavResult.redirect ("/" ++ journalIdToString id))) := by
  constructor
  · intro st body id hf hp
    rw [navigate_root, newDocumentId_ok hf hp]
  · intro name st body id hf hp
    rw [navigate_named, newDocumentId_ok hf hp]

/-- Witness for C2 with a coordinator oracle answering `abc`. -/
theorem router_creation_redirect_witness :
    navigate "http:" "localhost" (fun _ => FetchResult.ok 200 "abc") [] =
      ([newDocRequest "http:" "localhost" ""],
        NavResult.redirect ("/" ++ journalIdToString ⟨"abc", rfl⟩))
    ∧ navigate "http:" "localhost" (fun _ => FetchResult.ok 200 "abc") ["named", "Trip Planner"] =
      ([newDocRequest "http:" "localhost" "Trip Planner"],
        NavResult.redirect ("/" ++ journalIdToString ⟨"abc", rfl⟩)) :=
  ⟨(router_creation_redirect "http:" "localhost" (fun _ => FetchResult.ok 200 "abc")).1
      200 "abc" ⟨"abc", rfl⟩ rfl rfl,
   (router_creation_redirect "http:" "localhost" (fun _ => FetchResult.ok 200 "abc")).2
      "Trip Planner" 200 "abc" ⟨"abc", rfl⟩ rfl rfl⟩

/-- C4 counterexample: the HTTP status is never inspected, so a coordinator
response with the non-success status 500 whose body still parses does not
cause the operation to fail — `newDocumentId` succeeds. -/
theorem status_ignored_counterexample :
    (newDocumentId "https:" "example.com" (fun _ => FetchResult.ok 500 "abc") "").2
      = Except.ok ⟨"abc", rfl⟩ := rfl

/-- C4 amended: exactly one request is made per invocation (no retry); a
network error or a response body the codec cannot parse causes the operation
to fail with that error, and a failing outcome propagates out of the calling
route loader as a failed navigation rather than being caught here. The HTTP
status code is not inspected, so a non-success status alone is not a
failure. -/
theorem createDocument_failure_propagation (p h name : String)
    (fetch : Request → FetchResult) :
    (newDocumentId p h fetch name).1 = [newDocRequest p h name]
    ∧ (∀ m, fetch (newDocRequest p h name) = FetchResult.networkError m →
        (newDocumentId p h fetch name).2 = Except.error (JsError.network m))
    ∧ (∀ (st : Nat) (body e : String),
        fetch (newDocRequest p h name) = FetchResult.ok st body →
        journalIdFromString body = Except.error e →
        (newDocumentId p h fetch name).2 = Except.error (JsError.codec e))
    ∧ (∀ e, (newDocumentId p h fetch "").2 = Except.error e →
        navigate p h fetch [] = ([newDocRequest p h ""], NavResult.failed e))
    ∧ (∀ e, (newDocumentId p h fetch name).2 = Except.error e →
        navigate p h fetch ["named", name] =
          ([newDocRequest p h name], NavResult.failed e)) := by
  refine ⟨rfl, fun m hf => ?_, fun st body e hf hp => ?_,
    fun e he => ?_, fun e he => ?_⟩
  · simp only [newDocumentId, hf]
  · simp only [newDocumentId, hf, hp]
  · rw [navigate_root, he]; rfl
  · rw [navigate_named, he]; rfl

/-- Witness for C4 (amended) with a failing network oracle. -/
theorem createDocument_failure_propagation_witness :
    (newDocumentId "http:" "localhost" (fun _ => FetchResult.networkError "offline") "").2
      = Except.error (JsError.network "offline")
    ∧ navigate "http:" "localhost" (fun _ => FetchResult.networkError "offline") []
      = ([newDocRequest "http:" "localhost" ""],
          NavResult.failed (JsError.network "offline")) := by
  have H := createDocument_failure_propagation "http:" "localhost" ""
      (fun _ => FetchResult.networkError "offline")
  exact ⟨H.2.1 "offline" rfl,
    H.2.2.2.1 (JsError.network "offline") (H.2.1 "offline" rfl)⟩

/-- C5: with the `docId` parameter absent or empty, `DocRoute` renders the
visible red `ERROR: doc id not found in params` element, logs the diagnostic
message to the console, does not throw, and issues no network request. -/
theorem docroute_missing_param_error :
    DocRoute none =
      ⟨[], ["doc id not found in params"],
        DocView.errorPre "red" "ERROR: doc id not found in params"⟩
    ∧ DocRoute (some "") =
      ⟨[], ["doc id not found in params"],
        DocView.errorPre "red" "ERROR: doc id not found in params"⟩ :=
  ⟨rfl, rfl⟩

/-- C6: navigating to `/{s}` where `s` parses as a canonical identifier
renders the Document View with `docId` equal to the parse of `s`, with no
network request issued during resolution. -/
theorem docid_route_renders_parsed (p h : String) (fetch : Request → FetchResult)
    (s : String) (id : JournalId) (hp : journalIdFromString s = Except.ok id) :
    navigate p h fetch [s] = ([], NavResult.render [] (DocView.app id)) := by
  have hcanon : isCanonical s = true := (journalIdFromString_ok hp).2
  have hne : s ≠ "" := canonical_ne_empty hcanon
  have hD : DocRoute (some s) = ⟨[], [], DocView.app id⟩ := by
    simp [DocRoute, hne, hp]
  rw [navigate_doc, hD]

/-- Witness for C6 at the path segment `abc123` from the spec, under an
oracle that would fail any request — showing none is made. -/
theorem docid_route_renders_parsed_witness :
    navigate "http:" "localhost" (fun _ => FetchResult.networkError "offline") ["abc123"] =
      ([], NavResult.render [] (DocView.app ⟨"abc123", rfl⟩)) :=
  docid_route_renders_parsed "http:" "localhost"
    (fun _ => FetchResult.networkError "offline") "abc123" ⟨"abc123", rfl⟩ rfl

/-- C8: on the identifiers the coordinator issues (values of the canonical
type), `journalIdFromString` and `journalIdToString` are mutually inverse:
parsing the canonical string form gives the identifier back, and a
successfully parsed string is the canonical form of its parse. -/
theorem journalId_roundtrip :
    (∀ id : JournalId, journalIdFromString (journalIdToString id) = Except.ok id)
    ∧ (∀ (s : String) (id : JournalId),
        journalIdFromString s = Except.ok id → journalIdToString id = s) :=
  ⟨journalIdFromString_toString, fun _ _ h => (journalIdFromString_ok h).1⟩

/-- Witness for C8 at the identifier with canonical form `abc123`. -/
theorem journalId_roundtrip_witness :
    journalIdFromString (journalIdToString ⟨"abc123", rfl⟩) = Except.ok ⟨"abc123", rfl⟩
    ∧ journalIdToString (⟨"abc123", rfl⟩ : JournalId) = "abc123" :=
  ⟨journalId_roundtrip.1 ⟨"abc123", rfl⟩,
   journalId_roundtrip.2 "abc123" ⟨"abc123", rfl⟩ rfl⟩

/-- C9: for every nonempty `docId` parameter, `DocRoute` never takes its
inline error branch and logs nothing: it hands the raw string to the codec,
renders `App` on a successful parse, and on a failed parse the codec's
exception escapes the component (no local handler). -/
theorem docroute_nonempty_no_inline_error (s : String) (hne : s ≠ "") :
    (DocRoute (some s)).log = []
    ∧ (∀ id, journalIdFromString s = Except.ok id →
        (DocRoute (some s)).view = DocView.app id)
    ∧ (∀ e, journalIdFromString s = Except.error e →
        (DocRoute (some s)).view = DocView.thrown e)
    ∧ (∀ c t, (DocRoute (some s)).view ≠ DocView.errorPre c t) := by
  refine ⟨?_, fun id hp => ?_, fun e hp => ?_, fun c t => ?_⟩
  · cases hj : journalIdFromString s <;> simp [DocRoute, hne, hj]
  · simp [DocRoute, hne, hp]
  · simp [DocRoute, hne, hp]
  · cases hj : journalIdFromString s <;> simp [DocRoute, hne, hj]

/-- Witness for C9: an unparsable nonempty parameter ends as a thrown codec
error, a parsable one as the rendered `App`. -/
theorem docroute_nonempty_no_inline_error_witness :
    (DocRoute (some "!!!")).view = DocView.thrown "unable to parse journal id"
    ∧ (DocRoute (some "abc123")).view = DocView.app ⟨"abc123", rfl⟩ :=
  ⟨(docroute_nonempty_no_inline_error "!!!" (by decide)).2.2.1
      "unable to parse journal id" rfl,
   (docroute_nonempty_no_inline_error "abc123" (by decide)).2.1 ⟨"abc123", rfl⟩ rfl⟩

end SqlSyncDemo
